import Mathlib

/-!
# Verification of the loom-warp Agent Coordination & Work Distribution Engine

This file is a shallow embedding, in Lean 4, of the core of the loom-warp
repository (a NATS-backed agent registry, work queue, dead-letter queue,
inbox delivery, and optional coordinator), together with theorems settling
a list of claims about it.

Conventions used throughout:

* TypeScript interfaces become Lean structures; `undefined`/optional fields
  become `Option`.
* Stateful broker interactions (JetStream streams, KV buckets) are embedded
  as explicit state values threaded through the operations; a `publish` is
  an append to the relevant queue list.
* Wall-clock timestamps (`new Date().toISOString()`) are passed in as an
  explicit `now : String` parameter.
* Randomly minted identifiers (`randomUUID()`) are passed in as explicit
  parameters.
* Thrown `Error`s become `Except String` results carrying the error message.
-/

namespace LoomWarp

/-! ## Registry data model (src/types.ts, reconstructed from its uses) -/

/-- `status` field of a registry entry: `'online' | 'busy' | 'offline'`. -/
inductive AgentStatus where
  | online
  | busy
  | offline
deriving DecidableEq, Repr

/-- `scope` field: `'user' | 'project'`. -/
inductive Scope where
  | user
  | project
deriving DecidableEq, Repr

/-- `visibility` field: `'private' | 'project-only' | 'user-only' | 'public'`. -/
inductive Visibility where
  | priv
  | projectOnly
  | userOnly
  | pub
deriving DecidableEq, Repr

/-- `RegistryEntry` from src/types.ts, with the fields exercised by
src/registry.test.ts and the tool handlers in src/tools/registry.ts. -/
structure RegistryEntry where
  guid : String
  agentType : String
  handle : String
  hostname : String
  projectId : String
  natsUrl : String
  username : Option String
  capabilities : List String
  scope : Scope
  visibility : Visibility
  status : AgentStatus
  currentTaskCount : Int
  registeredAt : String
  lastHeartbeat : String
deriving DecidableEq, Repr

/-- `Requester` from src/registry.ts (reconstructed from its uses in
src/coordinator.ts and src/tools/registry.ts): the requesting agent's
guid, projectId and optional username. -/
structure Requester where
  guid : String
  projectId : String
  username : Option String
deriving DecidableEq, Repr

/-! ## Visibility and redaction

The implementation file src/registry.ts is not part of the source snapshot;
only its test suite (bundled with src/coordinator.ts), its mocks, and its
callers are.  The two functions below are therefore modelled from the
specification, and each is cross-checked against the repository's own test
vectors in separate theorems further down. -/

/-- Whether the `user-only` username condition holds between an entry and a
requester: both sides have a non-empty `username` and they match. -/
def usernamesMatch (entry : RegistryEntry) (req : Requester) : Bool :=
  match entry.username, req.username with
  | some eu, some ru => !eu.isEmpty && !ru.isEmpty && eu == ru
  | _, _ => false

/-- Modelled from the spec: `isVisibleTo(entry, requester)` of the absent
src/registry.ts.
- `private`: visible only if `requester.guid == entry.guid`;
- `project-only`: visible if self or `requester.projectId == entry.projectId`;
- `user-only`: visible if self, or both sides have a non-empty `username`
  and they match;
- `public`: always visible.
The repository's own tests for `isVisibleTo` (in the test bundle shipped
with src/coordinator.ts) agree with this truth table on every vector. -/
def isVisibleTo (entry : RegistryEntry) (req : Requester) : Bool :=
  match entry.visibility with
  | .priv => req.guid == entry.guid
  | .projectOnly => req.guid == entry.guid || req.projectId == entry.projectId
  | .userOnly => req.guid == entry.guid || usernamesMatch entry req
  | .pub => true

/-- The view returned by `redactEntry`: every field optional, `none` meaning
the field is absent from the returned object. -/
structure RedactedEntry where
  guid : Option String
  agentType : Option String
  handle : Option String
  hostname : Option String
  projectId : Option String
  natsUrl : Option String
  username : Option String
  capabilities : Option (List String)
  scope : Option Scope
  visibility : Option Visibility
  status : Option AgentStatus
  currentTaskCount : Option Int
  registeredAt : Option String
  lastHeartbeat : Option String
deriving DecidableEq, Repr

/-- The empty object `{}`. -/
def RedactedEntry.empty : RedactedEntry :=
  { guid := none, agentType := none, handle := none, hostname := none,
    projectId := none, natsUrl := none, username := none,
    capabilities := none, scope := none, visibility := none,
    status := none, currentTaskCount := none, registeredAt := none,
    lastHeartbeat := none }

/-- The full, unredacted view of an entry. -/
def RedactedEntry.ofFull (e : RegistryEntry) : RedactedEntry :=
  { guid := some e.guid, agentType := some e.agentType,
    handle := some e.handle, hostname := some e.hostname,
    projectId := some e.projectId, natsUrl := some e.natsUrl,
    username := e.username, capabilities := some e.capabilities,
    scope := some e.scope, visibility := some e.visibility,
    status := some e.status, currentTaskCount := some e.currentTaskCount,
    registeredAt := some e.registeredAt, lastHeartbeat := some e.lastHeartbeat }

/-- Modelled from the spec: `redactEntry(entry, requester)` of the absent
src/registry.ts: `{}` if not visible; the full entry if the requester is the
entry's own GUID; otherwise a view with a base field set, `projectId` and
`natsUrl` gated on a matching `projectId`, and `username` gated on
`user-only` matching.  One deliberate divergence from the spec's wording:
the repository's own tests pin `hostname` into the always-present base set
(`redactEntry` test "should include hostname for public agents", with the
inline comment "public shows hostname", asserts `hostname` present for a
requester from a different project), so `hostname` is not gated on the
project match here. -/
def redactEntry (entry : RegistryEntry) (req : Requester) : RedactedEntry :=
  if !isVisibleTo entry req then RedactedEntry.empty
  else if req.guid == entry.guid then RedactedEntry.ofFull entry
  else
    { guid := some entry.guid, agentType := some entry.agentType,
      handle := some entry.handle, hostname := some entry.hostname,
      projectId := if req.projectId == entry.projectId
                   then some entry.projectId else none,
      natsUrl := if req.projectId == entry.projectId
                 then some entry.natsUrl else none,
      username := if entry.visibility == .userOnly && usernamesMatch entry req
                  then entry.username else none,
      capabilities := some entry.capabilities, scope := some entry.scope,
      visibility := none, status := some entry.status,
      currentTaskCount := some entry.currentTaskCount,
      registeredAt := none, lastHeartbeat := some entry.lastHeartbeat }

/-! ## Presence update and deregistration (src/tools/registry.ts)

`handleUpdatePresence` and `handleDeregisterAgent` wrap a read-modify-write
of the caller's own registry entry.  The two functions below embed the
entry update each handler performs between `getRegistryEntry` and
`putRegistryEntry`; the surrounding session-state checks and broker error
paths return early without writing anything. -/

/-- The entry written by `handleUpdatePresence` (src/tools/registry.ts):
starting from the current stored entry, always stamps `lastHeartbeat` with
the current time, and overwrites exactly the provided fields among
`status`, `currentTaskCount` and `capabilities`.  Returns the handler's
validation error when no field is provided (in which case nothing is
written). -/
def updatePresenceEntry (status? : Option AgentStatus)
    (currentTaskCount? : Option Int) (capabilities? : Option (List String))
    (entry : RegistryEntry) (now : String) : Except String RegistryEntry :=
  if status?.isNone && currentTaskCount?.isNone && capabilities?.isNone then
    .error "At least one field (status, currentTaskCount, or capabilities) must be provided"
  else
    .ok { entry with
          lastHeartbeat := now,
          status := status?.getD entry.status,
          currentTaskCount := currentTaskCount?.getD entry.currentTaskCount,
          capabilities := capabilities?.getD entry.capabilities }

/-- The entry written by `handleDeregisterAgent` (src/tools/registry.ts):
`{ ...entry, status: 'offline' }` — only `status` is changed; in
particular `lastHeartbeat` is left untouched. -/
def deregisterEntryUpdate (entry : RegistryEntry) : RegistryEntry :=
  { entry with status := .offline }

/-! ## Registration GUID reuse (src/tools/registry.ts) -/

/-- The predicate `findReusableAgent` filters the registry with
(src/tools/registry.ts, `listRegistryEntries` callback): same `handle`,
same `projectId`, same `hostname`, and `status === 'offline'`. -/
def reusableMatch (handle projectId hostnameStr : String)
    (e : RegistryEntry) : Bool :=
  e.handle == handle && e.projectId == projectId &&
    e.hostname == hostnameStr && e.status == .offline

/-- `findReusableAgent(handle, projectId, hostname)` from
src/tools/registry.ts: lists entries matching `reusableMatch` and returns
the GUID of the first match, or `null` when there is none. -/
def findReusableAgent (entries : List RegistryEntry)
    (handle projectId hostnameStr : String) : Option String :=
  match entries.filter (reusableMatch handle projectId hostnameStr) with
  | [] => none
  | e :: _ => some e.guid

/-- The GUID under which `handleRegisterAgent` (src/tools/registry.ts)
stores the new entry: the reusable GUID when `findReusableAgent` found one,
otherwise the fresh UUID v4 minted by `createRegistryEntry` (passed in here
as `freshGuid`). -/
def registrationGuid (entries : List RegistryEntry)
    (handle projectId hostnameStr freshGuid : String) : String :=
  match findReusableAgent entries handle projectId hostnameStr with
  | some g => g
  | none => freshGuid

/-! ## Work queue (src/workqueue.ts) -/

/-- `WorkItem` from src/types.ts (reconstructed from its uses in
src/workqueue.ts, src/coordinator.ts and src/dlq.ts).  `contextData` is an
opaque record; its contents never matter to the core, so it is embedded as
an association list of strings. -/
structure WorkItem where
  id : String
  taskId : String
  capability : String
  description : String
  priority : Option Int
  deadline : Option String
  contextData : Option (List (String × String))
  offeredBy : String
  offeredAt : String
  attempts : Nat
deriving DecidableEq, Repr

/-- One character of the UUID v4 pattern
`/^[0-9a-f]{8}-[0-9a-f]{4}-4[0-9a-f]{3}-[89ab][0-9a-f]{3}-[0-9a-f]{12}$/i`
(src/workqueue.ts, `isValidUUID`): hyphens at positions 8, 13, 18 and 23,
the version nibble `4` at position 14, the variant nibble in `[89ab]`
(case-insensitively) at position 19, and hex digits (case-insensitively)
everywhere else. -/
def uuidCharOk (i : Nat) (c : Char) : Bool :=
  if i == 8 || i == 13 || i == 18 || i == 23 then c == '-'
  else if i == 14 then c == '4'
  else if i == 19 then c == '8' || c == '9' || c == 'a' || c == 'b' || c == 'A' || c == 'B'
  else c.isDigit || ('a' ≤ c && c ≤ 'f') || ('A' ≤ c && c ≤ 'F')

/-- `isValidUUID` from src/workqueue.ts: the string matches the 36-character
UUID v4 pattern above. -/
def isValidUUID (s : String) : Bool :=
  s.length == 36 && (s.toList.enum.all fun p => uuidCharOk p.1 p.2)

/-- `String.prototype.trim()`: strip leading and trailing whitespace
(embedded structurally over the character list). -/
def jsTrim (s : String) : String :=
  String.mk (((s.toList.dropWhile Char.isWhitespace).reverse.dropWhile
    Char.isWhitespace).reverse)

/-- `validateWorkItem` from src/workqueue.ts: returns the first thrown
validation error, or `none` when the item is valid.  The checks, in source
order: `id` must be a UUID v4; `capability` must not be empty or
whitespace-only; `priority`, if present, must lie in `[1, 10]`. -/
def validateWorkItem (item : WorkItem) : Option String :=
  if !isValidUUID item.id then
    some ("Invalid work item ID: " ++ item.id ++ " (must be UUID v4)")
  else if item.capability == "" || jsTrim item.capability == "" then
    some "Work item capability cannot be empty"
  else
    match item.priority with
    | some p =>
      if p < 1 || p > 10 then
        some ("Invalid priority: " ++ toString p ++ " (must be 1-10)")
      else none
    | none => none

/-- `getWorkQueueSubject(capability)` from src/workqueue.ts:
`"global.workqueue." + capability`. -/
def getWorkQueueSubject (capability : String) : String :=
  "global.workqueue." ++ capability

/-- `sanitizeCapability` from src/workqueue.ts: replace every
non-alphanumeric character with an underscore and uppercase the result
(embedded over ASCII, which covers every capability the system uses). -/
def sanitizeCapability (capability : String) : String :=
  String.mk (capability.toList.map fun c =>
    if c.isAlphanum then c.toUpper else '_')

/-- The JetStream subject space, embedded as an association list from
subject name to the ordered list of work items published on it. -/
abbrev Queues := List (String × List WorkItem)

/-- Items published on one subject (empty for an absent subject). -/
def Queues.get (qs : Queues) (subject : String) : List WorkItem :=
  match qs.find? (fun kv => kv.1 == subject) with
  | some kv => kv.2
  | none => []

/-- Append one item to a subject (creating the subject on first use, as
JetStream does when the stream owning the subject exists). -/
def Queues.append (qs : Queues) (subject : String) (item : WorkItem) : Queues :=
  match qs with
  | [] => [(subject, [item])]
  | kv :: rest =>
    if kv.1 == subject then (kv.1, kv.2 ++ [item]) :: rest
    else kv :: Queues.append rest subject item

/-- `publishWorkItem(item)` from src/workqueue.ts: validates the item
(throwing the validation error and publishing nothing when it fails), then
appends its payload to the capability's work-queue subject and returns the
item's id. -/
def publishWorkItem (item : WorkItem) (qs : Queues) :
    Except String (Queues × String) :=
  match validateWorkItem item with
  | some e => .error e
  | none => .ok (Queues.append qs (getWorkQueueSubject item.capability) item, item.id)

/-! ## Claiming work (src/workqueue.ts, `claimWorkItem`)

The broker state needed by `claimWorkItem`: which streams exist, which
durable consumers exist, and the pending messages of each work-queue
stream.  A pending message is a raw payload that either parses to a
`WorkItem` or not, together with the broker's delivery count for it. -/

/-- A pending queue message: the broker's `deliveryCount` for it, and its
payload's parse outcome (`.error` embeds a `JSON.parse` failure). -/
structure QueueMsg where
  deliveryCount : Nat
  payload : Except String WorkItem
deriving Repr

/-- Broker state for the one-shot claim path. -/
structure Broker where
  streams : List String
  consumers : List (String × String)
  pending : List (String × List QueueMsg)
deriving Repr

/-- Pending messages of one stream. -/
def Broker.pendingOf (b : Broker) (stream : String) : List QueueMsg :=
  match b.pending.find? (fun kv => kv.1 == stream) with
  | some kv => kv.2
  | none => []

/-- Remove the first pending message of a stream (an immediate ack). -/
def Broker.ackFirst (b : Broker) (stream : String) : Broker :=
  { b with pending := b.pending.map fun kv =>
      if kv.1 == stream then (kv.1, kv.2.drop 1) else kv }

/-- Ensure the durable consumer for a stream exists (created with the
default `ack_wait`/`max_deliver` configuration when absent). -/
def Broker.ensureConsumer (b : Broker) (stream consumer : String) : Broker :=
  if b.consumers.contains (stream, consumer) then b
  else { b with consumers := b.consumers ++ [(stream, consumer)] }

/-- `claimWorkItem(capability, timeoutMs)` from src/workqueue.ts: if the
`WORKQUEUE_*` stream for the capability does not exist, return `null` at
once, leaving the broker untouched (no stream and no consumer is created);
otherwise ensure the durable `worker-*` consumer exists and fetch at most
one message.  No message within the timeout means `null`.  A message whose
payload parses is acked (removed — the claim is permanent) and returned
with `attempts` replaced by the broker's delivery count (`|| 1`); a payload
that fails to parse is acked to avoid redelivery loops and `null` is
returned.  The result pairs the possibly-claimed item with the broker
state after the call. -/
def claimWorkItem (capability : String) (b : Broker) :
    Except String (Option WorkItem × Broker) :=
  let streamName := "WORKQUEUE_" ++ sanitizeCapability capability
  let consumerName := "worker-" ++ sanitizeCapability capability
  if !b.streams.contains streamName then
    .ok (none, b)
  else
    let b1 := b.ensureConsumer streamName consumerName
    match b1.pendingOf streamName with
    | [] => .ok (none, b1)
    | msg :: _ =>
      match msg.payload with
      | .ok item =>
        let claimed := { item with
          attempts := if msg.deliveryCount == 0 then 1 else msg.deliveryCount }
        .ok (some claimed, b1.ackFirst streamName)
      | .error _ => .ok (none, b1.ackFirst streamName)

/-! ## Dead letter queue (src/dlq.ts) -/

/-- `DLQItem` from src/types.ts (reconstructed from its construction in
src/dlq.ts, `moveToDeadLetter`). -/
structure DLQItem where
  id : String
  workItem : WorkItem
  reason : String
  attempts : Nat
  failedAt : String
  errors : List String
deriving DecidableEq, Repr

/-- `moveToDeadLetter(item, reason, errors?)` from src/dlq.ts: the record
published to the DLQ subject, keyed by the work item's own id.  The
`errors` field defaults to `[]` when absent (`errors || []`). -/
def moveToDeadLetter (item : WorkItem) (reason : String)
    (errors : Option (List String)) (now : String) : DLQItem :=
  { id := item.id, workItem := item, reason := reason,
    attempts := item.attempts, failedAt := now,
    errors := errors.getD [] }

/-- One sequence slot of the DLQ stream, as seen by the linear scans in
src/dlq.ts: the message may have been deleted (`getMessage` fails with a
"not found" condition and the scan skips it), may fail to parse (the scan
also skips it), or holds a `DLQItem`. -/
inductive DLQSlot where
  | deleted
  | unparseable
  | item (d : DLQItem)
deriving DecidableEq, Repr

/-- The DLQ stream: whether `WORKQUEUE_DEADLETTER` exists at all, and its
sequence slots (slot at list index `i` has sequence number `i + 1`;
`last_seq` is the list length). -/
structure DLQStream where
  streamExists : Bool
  slots : List DLQSlot
deriving DecidableEq, Repr

/-- Number of live messages in the stream (`streamInfo.state.messages`):
deleted slots are gone from the broker's count, unparseable ones are not. -/
def DLQStream.messageCount (s : DLQStream) : Nat :=
  (s.slots.filter fun slot => slot != DLQSlot.deleted).length

/-- The scan shared by `getDeadLetterItem`, `retryDeadLetterItem` and
`discardDeadLetterItem`: walk the sequence range in order, skip deleted and
unparseable slots, and stop at the first record whose `id` matches.
Returns the zero-based slot index and the record. -/
def findDLQSlot (slots : List DLQSlot) (id : String) : Option (Nat × DLQItem) :=
  match slots with
  | [] => none
  | DLQSlot.item d :: rest =>
    if d.id == id then some (0, d)
    else (findDLQSlot rest id).map fun p => (p.1 + 1, p.2)
  | _ :: rest => (findDLQSlot rest id).map fun p => (p.1 + 1, p.2)

/-- Mark one slot deleted (`jsm.streams.deleteMessage`). -/
def DLQStream.deleteAt (s : DLQStream) (idx : Nat) : DLQStream :=
  { s with slots := s.slots.set idx DLQSlot.deleted }

/-- `retryDeadLetterItem(id, resetAttempts)` from src/dlq.ts.  Fails with
`"DLQ item <id> not found"` when the DLQ stream does not exist, when it has
no live messages, or when the scan finds no record with the given id.
Otherwise: zero the stored work item's `attempts` when `resetAttempts` is
set, publish the work item back to `"global.workqueue." + capability`
(a direct `js.publish`, with no re-validation), and delete the DLQ record.
Returns the DLQ stream and queue state after the call. -/
def retryDeadLetterItem (id : String) (resetAttempts : Bool)
    (s : DLQStream) (qs : Queues) : Except String (DLQStream × Queues) :=
  if !s.streamExists then .error ("DLQ item " ++ id ++ " not found")
  else if s.messageCount == 0 then .error ("DLQ item " ++ id ++ " not found")
  else
    match findDLQSlot s.slots id with
    | none => .error ("DLQ item " ++ id ++ " not found")
    | some (idx, d) =>
      let work := if resetAttempts then { d.workItem with attempts := 0 }
                  else d.workItem
      let qs' := Queues.append qs ("global.workqueue." ++ d.workItem.capability) work
      .ok (s.deleteAt idx, qs')

/-- `discardDeadLetterItem(id)` from src/dlq.ts: the same "not found"
conditions as `retryDeadLetterItem`, and on success deletes the DLQ record
without republishing anything. -/
def discardDeadLetterItem (id : String) (s : DLQStream) :
    Except String DLQStream :=
  if !s.streamExists then .error ("DLQ item " ++ id ++ " not found")
  else if s.messageCount == 0 then .error ("DLQ item " ++ id ++ " not found")
  else
    match findDLQSlot s.slots id with
    | none => .error ("DLQ item " ++ id ++ " not found")
    | some (idx, _) => .ok (s.deleteAt idx)

/-! ## Inbox reading (src/tools/registry.ts, `handleReadDirectMessages`) -/

/-- `InboxMessage` from src/types.ts (reconstructed from its uses).  The
source stores `timestamp` as an ISO-8601 string and compares messages via
`new Date(timestamp).getTime()`; the embedding keeps that epoch-millisecond
value directly as a `Nat`. -/
structure InboxMessage where
  id : String
  senderGuid : String
  senderHandle : String
  recipientGuid : String
  messageType : String
  content : String
  metadata : Option (List (String × String))
  timestamp : Nat
deriving DecidableEq, Repr

/-- A raw message fetched from the inbox stream: either its payload parses
to an `InboxMessage` or `JSON.parse` fails. -/
abbrev RawInboxMsg := Except String InboxMessage

/-- The filter test of `handleReadDirectMessages`: the message must match
the `messageType` filter and the `senderGuid` filter when they are given. -/
def inboxFilterOk (messageType? senderGuid? : Option String)
    (m : InboxMessage) : Bool :=
  (match messageType? with
   | some t => m.messageType == t
   | none => true) &&
  (match senderGuid? with
   | some g => m.senderGuid == g
   | none => true)

/-- The fetch loop of `handleReadDirectMessages`, over the fetched batch:
a message that fails to parse is acked and skipped; a message failing a
filter is acked and skipped; a matching message is kept (and acked after
the loop), and the loop breaks once `limit` messages are kept (`cap` is
the remaining capacity, `limit - kept so far`).  Returns the kept payloads
in arrival order and the list of raw messages acked — which is exactly the
list of messages the loop examined. -/
def inboxReadLoop (msgs : List RawInboxMsg) (cap : Nat)
    (messageType? senderGuid? : Option String) :
    List InboxMessage × List RawInboxMsg :=
  match msgs with
  | [] => ([], [])
  | m :: rest =>
    match m with
    | .error _ =>
      let r := inboxReadLoop rest cap messageType? senderGuid?
      (r.1, m :: r.2)
    | .ok p =>
      if inboxFilterOk messageType? senderGuid? p then
        if cap ≤ 1 then ([p], [m])
        else
          let r := inboxReadLoop rest (cap - 1) messageType? senderGuid?
          (p :: r.1, m :: r.2)
      else
        let r := inboxReadLoop rest cap messageType? senderGuid?
        (r.1, m :: r.2)

/-- Insert a message into a list sorted by ascending timestamp, before the
first message with an equal or later timestamp (matching the stability of
`Array.prototype.sort` under the comparator `aTime - bTime` when the list
is built by inserting earlier-fetched messages last). -/
def insertByTimestamp (m : InboxMessage) :
    List InboxMessage → List InboxMessage
  | [] => [m]
  | x :: xs =>
    if m.timestamp ≤ x.timestamp then m :: x :: xs
    else x :: insertByTimestamp m xs

/-- Sort messages by ascending timestamp (the
`messages.sort((a, b) => aTime - bTime)` step). -/
def sortByTimestamp : List InboxMessage → List InboxMessage
  | [] => []
  | m :: ms => insertByTimestamp m (sortByTimestamp ms)

/-- The result of one inbox read: the returned messages, and the raw
messages that were acked. -/
structure InboxReadResult where
  returned : List InboxMessage
  acked : List RawInboxMsg

/-- The message-processing core of `handleReadDirectMessages`
(src/tools/registry.ts): clamp the requested limit to 100 (default 10 is
applied by the caller of this embedding), fetch up to `2 * limit` messages
from the inbox stream (`inbox` lists the stream's pending messages in
order), run the filter/ack loop, and return the kept messages sorted by
timestamp ascending. -/
def readDirectMessages (inbox : List RawInboxMsg) (requestedLimit : Nat)
    (messageType? senderGuid? : Option String) : InboxReadResult :=
  let limit := min requestedLimit 100
  let fetched := inbox.take (2 * limit)
  let r := inboxReadLoop fetched limit messageType? senderGuid?
  { returned := sortByTimestamp r.1, acked := r.2 }

/-! ## Coordinator (src/coordinator.ts)

The `Coordinator` class holds its configuration, an in-process `Map` of
`WorkAssignment`s, and a `Map` of per-assignment timeout timers.  The
embedding threads that state explicitly; the work-queue publishes go
through the `Queues` state via `publishWorkItem` (so a validation failure
is an error escaping the operation, exactly as the thrown exception does),
and DLQ hand-offs are recorded in an append-only log of published DLQ
records (JetStream-side `msgID` deduplication is broker behavior outside
this model). -/

/-- Assignment status:
`'pending' | 'assigned' | 'in-progress' | 'completed' | 'failed'`. -/
inductive AssignmentStatus where
  | pending
  | assigned
  | inProgress
  | completed
  | failed
deriving DecidableEq, Repr

/-- `WorkAssignment` from src/coordinator.ts. -/
structure WorkAssignment where
  workItemId : String
  taskId : String
  capability : String
  assignedTo : Option String
  assignedAt : Option String
  status : AssignmentStatus
  progress : Int
  attempts : Nat
  maxAttempts : Nat
  createdAt : String
  completedAt : Option String
  result : Option (List (String × String))
  error : Option String
deriving DecidableEq, Repr

/-- `WorkRequest` from src/coordinator.ts. -/
structure WorkRequest where
  taskId : String
  capability : String
  description : String
  priority : Option Int
  deadline : Option String
  contextData : Option (List (String × String))
deriving DecidableEq, Repr

/-- The coordinator's state: its resolved configuration, the assignment
map, the set of work item ids with an armed timeout checker, the work-queue
state its publishes land in, and the log of DLQ records it handed off. -/
structure CoordState where
  maxAttempts : Nat
  assignmentTimeoutMs : Nat
  autoRetry : Bool
  coordinatorGuid : String
  projectId : String
  username : Option String
  assignments : List (String × WorkAssignment)
  timers : List String
  queues : Queues
  dlq : List DLQItem

/-- Look an assignment up (`this.assignments.get(workItemId)`). -/
def CoordState.getAssignment (s : CoordState) (workItemId : String) :
    Option WorkAssignment :=
  match s.assignments.find? (fun kv => kv.1 == workItemId) with
  | some kv => some kv.2
  | none => none

/-- Overwrite an assignment (the in-place mutation of the `Map` entry). -/
def CoordState.setAssignment (s : CoordState) (workItemId : String)
    (a : WorkAssignment) : CoordState :=
  { s with assignments := s.assignments.map fun kv =>
      if kv.1 == workItemId then (kv.1, a) else kv }

/-- `startTimeoutChecker` (also used by `resetTimeoutChecker`): the work
item ends up with exactly one armed timer. -/
def CoordState.startTimer (s : CoordState) (workItemId : String) : CoordState :=
  { s with timers :=
      (s.timers.filter fun t => t != workItemId) ++ [workItemId] }

/-- `clearTimeoutChecker`: cancel and forget the timer, if any. -/
def CoordState.clearTimer (s : CoordState) (workItemId : String) : CoordState :=
  { s with timers := s.timers.filter fun t => t != workItemId }

/-- `submitWork(request)` from src/coordinator.ts: record a fresh `pending`
assignment under the minted work item id, build the work item (default
priority 5, `attempts` 0), ensure the capability's queue stream exists
(left implicit here: `Queues.append` creates the subject), publish it, and
arm the timeout checker.  The minted UUID and the current time are passed
in.  When the publish throws, the assignment stays recorded and no timer is
armed, matching the thrown-through `await publishWorkItem(workItem)`. -/
def submitWork (request : WorkRequest) (workItemId now : String)
    (s : CoordState) : CoordState × Except String String :=
  let assignment : WorkAssignment :=
    { workItemId := workItemId, taskId := request.taskId,
      capability := request.capability, assignedTo := none,
      assignedAt := none, status := .pending, progress := 0,
      attempts := 0, maxAttempts := s.maxAttempts, createdAt := now,
      completedAt := none, result := none, error := none }
  let s1 := { s with assignments := s.assignments ++ [(workItemId, assignment)] }
  let workItem : WorkItem :=
    { id := workItemId, taskId := request.taskId,
      capability := request.capability, description := request.description,
      priority := some (request.priority.getD 5),
      deadline := request.deadline, contextData := request.contextData,
      offeredBy := s.coordinatorGuid, offeredAt := now, attempts := 0 }
  match publishWorkItem workItem s1.queues with
  | .error e => (s1, .error e)
  | .ok (qs, _) =>
    let s2 := { s1 with queues := qs }
    (s2.startTimer workItemId, .ok workItemId)

/-- `recordClaim(workItemId, workerGuid)` from src/coordinator.ts: `false`
without any change when the work item is unknown or not `pending`;
otherwise set `assignedTo`, `assignedAt`, status `assigned`, bump
`attempts`, and reset the timeout checker. -/
def recordClaim (workItemId workerGuid now : String) (s : CoordState) :
    CoordState × Bool :=
  match s.getAssignment workItemId with
  | none => (s, false)
  | some a =>
    if a.status != .pending then (s, false)
    else
      let a' := { a with
                  assignedTo := some workerGuid,
                  assignedAt := some now, status := .assigned,
                  attempts := a.attempts + 1 }
      ((s.setAssignment workItemId a').startTimer workItemId, true)

/-- `recordProgress(workItemId, progress)` from src/coordinator.ts: `false`
without any change when the work item is unknown or its status is neither
`assigned` nor `in-progress`; otherwise set status `in-progress`, clamp the
progress to `[0, 100]`, and reset the timeout checker. -/
def recordProgress (workItemId : String) (progress : Int) (s : CoordState) :
    CoordState × Bool :=
  match s.getAssignment workItemId with
  | none => (s, false)
  | some a =>
    if a.status != .assigned && a.status != .inProgress then (s, false)
    else
      let a' := { a with
                  status := .inProgress,
                  progress := min 100 (max 0 progress) }
      ((s.setAssignment workItemId a').startTimer workItemId, true)

/-- `recordCompletion(workItemId, result?)` from src/coordinator.ts:
`false` when the work item is unknown; otherwise — with no check of the
current status — set status `completed`, progress `100`, `completedAt`,
store the result if given, and clear the timeout checker. -/
def recordCompletion (workItemId : String)
    (result : Option (List (String × String))) (now : String)
    (s : CoordState) : CoordState × Bool :=
  match s.getAssignment workItemId with
  | none => (s, false)
  | some a =>
    let a' := { a with
                status := .completed, progress := 100,
                completedAt := some now,
                result := match result with
                          | some r => some r
                          | none => a.result }
    ((s.setAssignment workItemId a').clearTimer workItemId, true)

/-- `recordError(workItemId, error, recoverable)` from src/coordinator.ts:
`false` when the work item is unknown.  Otherwise record the error string;
then, if `recoverable && autoRetry && attempts < maxAttempts`, reset the
assignment to `pending` (clearing `assignedTo`, `assignedAt` and
`progress`), republish a retry work item (priority 7, description
`"Retry attempt <attempts + 1>"`, `attempts` copied from the assignment)
and restart the timeout checker; in every other case set status `failed`,
clear the timer, and hand a synthesized work item (no priority, offered at
the assignment's `createdAt`) to the DLQ with the error as both the
`reason` and the only `errors` entry.  A publish failure in the retry
branch escapes after the assignment reset, before the timer restart. -/
def recordError (workItemId error : String) (recoverable : Bool)
    (now : String) (s : CoordState) : CoordState × Except String Bool :=
  match s.getAssignment workItemId with
  | none => (s, .ok false)
  | some a =>
    let a0 := { a with error := some error }
    if recoverable && s.autoRetry && decide (a.attempts < a.maxAttempts) then
      let a' := { a0 with
                  status := .pending, assignedTo := none,
                  assignedAt := none, progress := 0 }
      let s1 := s.setAssignment workItemId a'
      let workItem : WorkItem :=
        { id := workItemId, taskId := a.taskId, capability := a.capability,
          description := "Retry attempt " ++ toString (a.attempts + 1),
          priority := some 7, deadline := none, contextData := none,
          offeredBy := s.coordinatorGuid, offeredAt := now,
          attempts := a.attempts }
      match publishWorkItem workItem s1.queues with
      | .error e => (s1, .error e)
      | .ok (qs, _) =>
        (({ s1 with queues := qs }).startTimer workItemId, .ok true)
    else
      let a' := { a0 with status := .failed }
      let s1 := (s.setAssignment workItemId a').clearTimer workItemId
      let workItem : WorkItem :=
        { id := workItemId, taskId := a.taskId, capability := a.capability,
          description := "Failed work item", priority := none,
          deadline := none, contextData := none,
          offeredBy := s.coordinatorGuid, offeredAt := a.createdAt,
          attempts := a.attempts }
      let d := moveToDeadLetter workItem error (some [error]) now
      ({ s1 with dlq := s1.dlq ++ [d] }, .ok true)

/-! ## Test fixtures

Concrete values lifted from the repository's own test suites, used to
anchor the spec-modelled registry functions against the tests and to build
witnesses and counterexamples. -/

/-- The `baseEntry` fixture of the `isVisibleTo`/`redactEntry` tests. -/
def baseEntry : RegistryEntry :=
  { guid := "123e4567-e89b-42d3-a456-426614174000", agentType := "developer",
    handle := "TestAgent", hostname := "test-host",
    projectId := "1234567890abcdef", natsUrl := "nats://localhost:4222",
    username := some "testuser", capabilities := ["typescript"],
    scope := .project, visibility := .priv, status := .online,
    currentTaskCount := 0, registeredAt := "2025-12-07T12:00:00.000Z",
    lastHeartbeat := "2025-12-07T12:00:00.000Z" }

/-- The `sameProjectRequester` fixture. -/
def sameProjectRequester : Requester :=
  { guid := "223e4567-e89b-42d3-a456-426614174000",
    projectId := "1234567890abcdef", username := some "otheruser" }

/-- The `differentProjectRequester` fixture. -/
def differentProjectRequester : Requester :=
  { guid := "323e4567-e89b-42d3-a456-426614174000",
    projectId := "fedcba0987654321", username := some "anotheruser" }

/-- The `sameUserRequester` fixture. -/
def sameUserRequester : Requester :=
  { guid := "423e4567-e89b-42d3-a456-426614174000",
    projectId := "fedcba0987654321", username := some "testuser" }

/-- The modelled `isVisibleTo` reproduces every vector of the repository's
`isVisibleTo` test suite (test bundle of src/coordinator.ts): private is
self-only; project-only admits the same project; user-only requires
matching non-absent usernames on both sides; public admits everyone. -/
theorem isVisibleTo_agrees_with_repo_tests :
    isVisibleTo baseEntry { sameProjectRequester with guid := baseEntry.guid } = true ∧
    isVisibleTo baseEntry sameProjectRequester = false ∧
    isVisibleTo baseEntry differentProjectRequester = false ∧
    isVisibleTo { baseEntry with visibility := .projectOnly } sameProjectRequester = true ∧
    isVisibleTo { baseEntry with visibility := .projectOnly } differentProjectRequester = false ∧
    isVisibleTo { baseEntry with visibility := .projectOnly, guid := sameProjectRequester.guid } sameProjectRequester = true ∧
    isVisibleTo { baseEntry with visibility := .userOnly } sameUserRequester = true ∧
    isVisibleTo { baseEntry with visibility := .userOnly } sameProjectRequester = false ∧
    isVisibleTo { baseEntry with visibility := .userOnly, username := none } sameUserRequester = false ∧
    isVisibleTo { baseEntry with visibility := .userOnly } { sameUserRequester with username := none } = false ∧
    isVisibleTo { baseEntry with visibility := .pub } sameProjectRequester = true ∧
    isVisibleTo { baseEntry with visibility := .pub } differentProjectRequester = true ∧
    isVisibleTo { baseEntry with visibility := .pub } sameUserRequester = true := by
  decide

/-- The modelled `redactEntry` reproduces the repository's `redactEntry`
test suite: `{}` when invisible; the full entry for self; the base set
(with `hostname`) plus project-gated `projectId`/`natsUrl` for a
same-project requester, without `username`/`registeredAt`; `hostname` but
neither `projectId` nor `natsUrl` for a different-project requester on a
public entry; `username` for a same-user requester on a user-only entry. -/
theorem redactEntry_agrees_with_repo_tests :
    redactEntry baseEntry sameProjectRequester = RedactedEntry.empty ∧
    redactEntry baseEntry { guid := baseEntry.guid, projectId := baseEntry.projectId, username := baseEntry.username } = RedactedEntry.ofFull baseEntry ∧
    (redactEntry { baseEntry with visibility := .projectOnly }
        sameProjectRequester).projectId = some baseEntry.projectId ∧
    (redactEntry { baseEntry with visibility := .projectOnly }
        sameProjectRequester).natsUrl = some baseEntry.natsUrl ∧
    (redactEntry { baseEntry with visibility := .projectOnly }
        sameProjectRequester).username = none ∧
    (redactEntry { baseEntry with visibility := .projectOnly }
        sameProjectRequester).registeredAt = none ∧
    (redactEntry { baseEntry with visibility := .pub }
        differentProjectRequester).hostname = some "test-host" ∧
    (redactEntry { baseEntry with visibility := .pub }
        differentProjectRequester).projectId = none ∧
    (redactEntry { baseEntry with visibility := .pub }
        differentProjectRequester).natsUrl = none ∧
    (redactEntry { baseEntry with visibility := .userOnly }
        sameUserRequester).username = some "testuser" := by
  decide

/-! ## Helper lemmas -/

/-- Appending to a subject leaves that subject's items extended by the new
item. -/
theorem Queues.get_append_self (qs : Queues) (subject : String)
    (item : WorkItem) :
    Queues.get (Queues.append qs subject item) subject =
      Queues.get qs subject ++ [item] := by
  induction qs with
  | nil => simp [Queues.append, Queues.get, List.find?]
  | cons kv rest ih =>
    cases h : kv.1 == subject with
    | true => simp [Queues.append, Queues.get, List.find?, h]
    | false =>
      have hstep : ∀ l : List (String × List WorkItem),
          Queues.get (kv :: l) subject = Queues.get l subject := by
        intro l; simp [Queues.get, List.find?, h]
      have happ : Queues.append (kv :: rest) subject item =
          kv :: Queues.append rest subject item := by
        simp [Queues.append, h]
      rw [happ, hstep, hstep, ih]

/-! ## Claim C10 -/

/-- C10: for every capability for which no work-queue stream exists,
`claimWorkItem` returns null without raising an error and without creating
the stream or a consumer (the broker state is returned untouched). -/
theorem claimWorkItem_missing_stream (capability : String) (b : Broker)
    (h : ("WORKQUEUE_" ++ sanitizeCapability capability) ∉ b.streams) :
    claimWorkItem capability b = .ok (none, b) := by
  unfold claimWorkItem
  simp [h]

/-- A broker holding only an unrelated stream. -/
def noTsBroker : Broker :=
  { streams := ["WORKQUEUE_PYTHON"], consumers := [], pending := [] }

/-- Witness for `claimWorkItem_missing_stream`: claiming `typescript` work
from a broker that has no `WORKQUEUE_TYPESCRIPT` stream. -/
theorem claimWorkItem_missing_stream_witness :
    claimWorkItem "typescript" noTsBroker = .ok (none, noTsBroker) :=
  claimWorkItem_missing_stream "typescript" noTsBroker (by decide)

/-! ## Claim C5 -/

/-- C5: registration reuses the GUID of an existing entry exactly when some
existing entry matches the `(handle, projectId, hostname)` triple and is
offline (`reusableMatch` spells out those four conditions); with no such
entry, the freshly minted UUID v4 (`freshGuid`, minted by
`createRegistryEntry` via `randomUUID()`) becomes the new entry's guid. -/
theorem registrationGuid_reuse_iff (entries : List RegistryEntry)
    (handle projectId hostnameStr freshGuid : String) :
    ((∀ e ∈ entries, reusableMatch handle projectId hostnameStr e = false) →
      registrationGuid entries handle projectId hostnameStr freshGuid = freshGuid) ∧
    ((∃ e ∈ entries, reusableMatch handle projectId hostnameStr e = true) →
      ∃ e ∈ entries, reusableMatch handle projectId hostnameStr e = true ∧
        registrationGuid entries handle projectId hostnameStr freshGuid = e.guid) := by
  constructor
  · intro hall
    have hfilter : entries.filter (reusableMatch handle projectId hostnameStr) = [] := by
      rw [List.filter_eq_nil_iff]
      intro e he
      simp [hall e he]
    simp [registrationGuid, findReusableAgent, hfilter]
  · intro hex
    cases hf : entries.filter (reusableMatch handle projectId hostnameStr) with
    | nil =>
      obtain ⟨e, he, hm⟩ := hex
      have hmem : e ∈ entries.filter (reusableMatch handle projectId hostnameStr) :=
        List.mem_filter.mpr ⟨he, hm⟩
      rw [hf] at hmem
      exact absurd hmem (List.not_mem_nil e)
    | cons e0 rest =>
      have hmem : e0 ∈ entries.filter (reusableMatch handle projectId hostnameStr) := by
        rw [hf]; exact List.mem_cons_self e0 rest
      have h0 := List.mem_filter.mp hmem
      exact ⟨e0, h0.1, h0.2, by simp [registrationGuid, findReusableAgent, hf]⟩

/-- A registered-but-online entry for the `dev1`/`h1` triple. -/
def onlineDev1 : RegistryEntry :=
  { baseEntry with handle := "dev1", hostname := "h1", status := .online }

/-- Witness for `registrationGuid_reuse_iff`: with the only candidate entry
online (not offline), a fresh GUID is used. -/
theorem registrationGuid_reuse_iff_witness :
    registrationGuid [onlineDev1] "dev1" "1234567890abcdef" "h1"
      "99998888-aaaa-4bbb-8ccc-ddddeeee0000" =
      "99998888-aaaa-4bbb-8ccc-ddddeeee0000" :=
  (registrationGuid_reuse_iff [onlineDev1] "dev1" "1234567890abcdef" "h1"
    "99998888-aaaa-4bbb-8ccc-ddddeeee0000").1 (by decide)

/-! ## Claim C6 -/

/-- C6: `publishWorkItem` throws a validation error (and publishes nothing
— no queue state is produced) when the id is not a UUID v4, the capability
is empty or whitespace-only, or a present priority lies outside `[1, 10]`;
when all three conditions hold it appends the item to the capability's
queue subject and returns the item's id. -/
theorem publishWorkItem_validates (item : WorkItem) (qs : Queues) :
    ((isValidUUID item.id = false ∨ jsTrim item.capability = "" ∨
        (∃ p, item.priority = some p ∧ (p < 1 ∨ 10 < p))) →
      ∃ e, publishWorkItem item qs = .error e) ∧
    (isValidUUID item.id = true → jsTrim item.capability ≠ "" →
      (∀ p, item.priority = some p → 1 ≤ p ∧ p ≤ 10) →
      publishWorkItem item qs =
        .ok (Queues.append qs (getWorkQueueSubject item.capability) item, item.id)) := by
  constructor
  · rintro (huuid | htrim | ⟨p, hp, hout⟩)
    · exact ⟨"Invalid work item ID: " ++ item.id ++ " (must be UUID v4)",
        by simp [publishWorkItem, validateWorkItem, huuid]⟩
    · by_cases huuid : isValidUUID item.id = true
      · exact ⟨"Work item capability cannot be empty",
          by simp [publishWorkItem, validateWorkItem, huuid, htrim]⟩
      · have huuid' : isValidUUID item.id = false := by
          simpa using huuid
        exact ⟨"Invalid work item ID: " ++ item.id ++ " (must be UUID v4)",
          by simp [publishWorkItem, validateWorkItem, huuid']⟩
    · by_cases huuid : isValidUUID item.id = true
      · by_cases hcap : (item.capability == "" || jsTrim item.capability == "") = true
        · exact ⟨"Work item capability cannot be empty",
            by simp [publishWorkItem, validateWorkItem, huuid, hcap]⟩
        · have hcond : (decide (p < 1) || decide (p > 10)) = true := by
            rcases hout with hl | hr
            · simp [hl]
            · simp [hr]
          refine ⟨"Invalid priority: " ++ toString p ++ " (must be 1-10)", ?_⟩
          simp only [publishWorkItem, validateWorkItem, huuid, Bool.not_true,
            Bool.false_eq_true, if_false, hcap, hp]
          simp [hcond]
      · have huuid' : isValidUUID item.id = false := by
          simpa using huuid
        exact ⟨"Invalid work item ID: " ++ item.id ++ " (must be UUID v4)",
          by simp [publishWorkItem, validateWorkItem, huuid']⟩
  · intro huuid htrim hpr
    have hcapne : item.capability ≠ "" := by
      intro hc
      exact htrim (by rw [hc]; rfl)
    have hcap : (item.capability == "") = false := beq_eq_false_iff_ne.mpr hcapne
    have hcapt : (jsTrim item.capability == "") = false := beq_eq_false_iff_ne.mpr htrim
    cases hp : item.priority with
    | none => simp [publishWorkItem, validateWorkItem, huuid, hcap, hcapt, hp]
    | some p =>
      have hb := hpr p hp
      have h1 : ¬p < 1 := by omega
      have h2 : ¬p > 10 := by omega
      simp [publishWorkItem, validateWorkItem, huuid, hcap, hcapt, hp, h1, h2]

/-- A valid work item for the witness. -/
def validItem : WorkItem :=
  { id := "123e4567-e89b-42d3-a456-426614174000", taskId := "task-1",
    capability := "typescript", description := "Test task",
    priority := none, deadline := none, contextData := none,
    offeredBy := "coord", offeredAt := "2025-01-15T10:00:00Z", attempts := 0 }

/-- Witness for `publishWorkItem_validates`: publishing a valid item into
an empty queue space appends it under its capability's subject and returns
its id. -/
theorem publishWorkItem_validates_witness :
    publishWorkItem validItem [] =
      .ok (Queues.append [] (getWorkQueueSubject validItem.capability) validItem,
        validItem.id) :=
  (publishWorkItem_validates validItem []).2 (by decide) (by decide)
    (fun p hp => nomatch hp)

/-! ## Claim C7 -/

/-- A successful DLQ scan implies the stream's live-message count is
positive (the found slot itself is live). -/
theorem findDLQSlot_pos (slots : List DLQSlot) (id : String) (idx : Nat)
    (d : DLQItem) (h : findDLQSlot slots id = some (idx, d)) :
    0 < (slots.filter fun slot => slot != DLQSlot.deleted).length := by
  induction slots generalizing idx with
  | nil => simp [findDLQSlot] at h
  | cons slot rest ih =>
    cases slot with
    | item d0 =>
      have hkeep : (DLQSlot.item d0 != DLQSlot.deleted) = true := rfl
      simp [List.filter_cons, hkeep]
    | deleted =>
      simp only [findDLQSlot, Option.map_eq_some'] at h
      obtain ⟨⟨i0, d0⟩, hp, heq⟩ := h
      obtain ⟨h1, h2⟩ : i0 + 1 = idx ∧ d0 = d := by simpa using heq
      subst h2
      have hrest := ih i0 hp
      have hdrop : (DLQSlot.deleted != DLQSlot.deleted) = false := rfl
      simpa [List.filter_cons, hdrop] using hrest
    | unparseable =>
      have hkeep : (DLQSlot.unparseable != DLQSlot.deleted) = true := rfl
      simp [List.filter_cons, hkeep]

/-- C7: when a DLQ record with the requested id exists, `retry` republishes
the stored work item (its `attempts` zeroed first when `resetAttempts` is
set) to the original capability's work-queue subject and deletes the DLQ
record, and `discard` deletes without republishing; when no record with
that id exists — including when the DLQ stream itself does not exist —
both fail with an error naming the id as not found. -/
theorem dlq_retry_discard (id : String) (reset : Bool) (s : DLQStream)
    (qs : Queues) :
    (∀ idx d, findDLQSlot s.slots id = some (idx, d) → s.streamExists = true →
      retryDeadLetterItem id reset s qs =
        .ok (s.deleteAt idx,
          Queues.append qs ("global.workqueue." ++ d.workItem.capability)
            (if reset then { d.workItem with attempts := 0 } else d.workItem)) ∧
      discardDeadLetterItem id s = .ok (s.deleteAt idx)) ∧
    ((s.streamExists = false ∨ findDLQSlot s.slots id = none) →
      retryDeadLetterItem id reset s qs = .error ("DLQ item " ++ id ++ " not found") ∧
      discardDeadLetterItem id s = .error ("DLQ item " ++ id ++ " not found")) := by
  constructor
  · intro idx d hfind hex
    have hpos := findDLQSlot_pos s.slots id idx d hfind
    have hne : s.messageCount ≠ 0 := by
      unfold DLQStream.messageCount
      omega
    have hcount : (s.messageCount == 0) = false := beq_eq_false_iff_ne.mpr hne
    constructor
    · simp [retryDeadLetterItem, hex, hcount, hfind]
    · simp [discardDeadLetterItem, hex, hcount, hfind]
  · rintro (hex | hnone)
    · constructor
      · simp [retryDeadLetterItem, hex]
      · simp [discardDeadLetterItem, hex]
    · by_cases hex : s.streamExists = true
      · by_cases hc : (s.messageCount == 0) = true
        · constructor
          · simp [retryDeadLetterItem, hex, hc]
          · simp [discardDeadLetterItem, hex, hc]
        · have hc' : (s.messageCount == 0) = false := by
            simpa using hc
          constructor
          · simp [retryDeadLetterItem, hex, hc', hnone]
          · simp [discardDeadLetterItem, hex, hc', hnone]
      · have hex' : s.streamExists = false := by
          simpa using hex
        constructor
        · simp [retryDeadLetterItem, hex']
        · simp [discardDeadLetterItem, hex']

/-- A concrete dead-lettered record for the witness. -/
def dlqRecord : DLQItem :=
  { id := validItem.id, workItem := { validItem with attempts := 3 },
    reason := "handler failed", attempts := 3,
    failedAt := "2025-01-15T10:00:00Z", errors := ["handler failed"] }

/-- A DLQ stream holding `dlqRecord` behind one unparseable slot. -/
def dlqFixtureStream : DLQStream :=
  { streamExists := true, slots := [DLQSlot.unparseable, DLQSlot.item dlqRecord] }

/-- Witness for `dlq_retry_discard`: retrying the stored record with
`resetAttempts` republishes the work item with `attempts` zeroed and marks
its slot deleted, and discarding deletes the slot. -/
theorem dlq_retry_discard_witness :
    retryDeadLetterItem dlqRecord.id true dlqFixtureStream [] =
      .ok (dlqFixtureStream.deleteAt 1,
        Queues.append [] ("global.workqueue." ++ dlqRecord.workItem.capability)
          (if true then { dlqRecord.workItem with attempts := 0 }
           else dlqRecord.workItem)) ∧
    discardDeadLetterItem dlqRecord.id dlqFixtureStream =
      .ok (dlqFixtureStream.deleteAt 1) :=
  (dlq_retry_discard dlqRecord.id true dlqFixtureStream []).1 1 dlqRecord
    (by decide) rfl

/-! ## Claim C2 -/

/-- A non-empty string is not `isEmpty`. -/
theorem isEmpty_false_of_ne (s : String) (h : s ≠ "") : s.isEmpty = false := by
  cases hbe : s.isEmpty with
  | false => rfl
  | true => exact absurd ((String.isEmpty_iff s).mp hbe) h

/-- `usernamesMatch` holds exactly when both sides carry the same non-empty
username. -/
theorem usernamesMatch_iff (e : RegistryEntry) (r : Requester) :
    usernamesMatch e r = true ↔
      ∃ u, e.username = some u ∧ r.username = some u ∧ u ≠ "" := by
  unfold usernamesMatch
  cases he : e.username with
  | none => simp
  | some eu =>
    cases hr : r.username with
    | none => simp
    | some ru =>
      constructor
      · intro h
        rw [Bool.and_eq_true, Bool.and_eq_true] at h
        obtain ⟨⟨heu, hru⟩, heq⟩ := h
        rw [Bool.not_eq_true'] at heu
        refine ⟨eu, rfl, ?_, ?_⟩
        · rw [Option.some.injEq]
          exact (beq_iff_eq.mp heq).symm
        · intro hc
          rw [hc] at heu
          exact absurd heu (by decide)
      · rintro ⟨u, hu1, hu2, hu3⟩
        rw [Option.some.injEq] at hu1 hu2
        rw [Bool.and_eq_true, Bool.and_eq_true]
        refine ⟨⟨?_, ?_⟩, ?_⟩
        · rw [Bool.not_eq_true', hu1]
          exact isEmpty_false_of_ne u hu3
        · rw [Bool.not_eq_true', hu2]
          exact isEmpty_false_of_ne u hu3
        · rw [beq_iff_eq, hu1, hu2]

/-- C2: the full visibility truth table of `isVisibleTo`.  `private` is
visible to self only; `project-only` to self or the same project;
`user-only` only with matching non-empty usernames on both sides (or
self); `public` to everyone. -/
theorem isVisibleTo_visibility_matrix (entry : RegistryEntry)
    (req : Requester) :
    isVisibleTo entry req = true ↔
      (match entry.visibility with
       | .priv => req.guid = entry.guid
       | .projectOnly => req.guid = entry.guid ∨ req.projectId = entry.projectId
       | .userOnly => req.guid = entry.guid ∨
           ∃ u, entry.username = some u ∧ req.username = some u ∧ u ≠ ""
       | .pub => True) := by
  cases hv : entry.visibility with
  | priv => simp [isVisibleTo, hv]
  | projectOnly => simp [isVisibleTo, hv]
  | userOnly => simp [isVisibleTo, hv, usernamesMatch_iff]
  | pub => simp [isVisibleTo, hv]

/-- Witness for `isVisibleTo_visibility_matrix`: a public entry is visible
to an unrelated requester. -/
theorem isVisibleTo_visibility_matrix_witness :
    isVisibleTo { baseEntry with visibility := .pub }
      differentProjectRequester = true :=
  (isVisibleTo_visibility_matrix { baseEntry with visibility := .pub }
    differentProjectRequester).mpr trivial

/-! ## Claim C3 -/

/-- Counterexample to the claim's `hostname` gating: on a `public` entry, a
requester from a different project still receives `hostname` in the
redacted view, so `hostname` is not included "only when
`requester.projectId` equals `entry.projectId`".  This is the behavior the
repository's own redaction tests demand ("public shows hostname"). -/
theorem redactEntry_hostname_cross_project :
    (redactEntry { baseEntry with visibility := .pub }
      differentProjectRequester).hostname = some "test-host" ∧
    differentProjectRequester.projectId ≠
      ({ baseEntry with visibility := Visibility.pub } : RegistryEntry).projectId := by
  decide

/-- Self-visibility: an entry is always visible to its own GUID. -/
theorem isVisibleTo_self (e : RegistryEntry) (r : Requester)
    (h : r.guid = e.guid) : isVisibleTo e r = true := by
  cases hv : e.visibility <;> simp [isVisibleTo, hv, h]

/-- C3 (amended): `redactEntry` returns `{}` when the entry is not visible
to the requester; the full entry when the requester is the entry itself;
and otherwise a view that always includes `guid`, `agentType`, `handle`,
`hostname`, `capabilities`, `scope`, `status`, `currentTaskCount` and
`lastHeartbeat`, includes `projectId` and the broker address (`natsUrl`)
exactly when `requester.projectId` equals `entry.projectId`, includes
`username` exactly under user-only matching, and never includes
`registeredAt`. -/
theorem redactEntry_amended (e : RegistryEntry) (r : Requester) :
    (isVisibleTo e r = false → redactEntry e r = RedactedEntry.empty) ∧
    (r.guid = e.guid → redactEntry e r = RedactedEntry.ofFull e) ∧
    (isVisibleTo e r = true → r.guid ≠ e.guid →
      (redactEntry e r).guid = some e.guid ∧
      (redactEntry e r).agentType = some e.agentType ∧
      (redactEntry e r).handle = some e.handle ∧
      (redactEntry e r).hostname = some e.hostname ∧
      (redactEntry e r).capabilities = some e.capabilities ∧
      (redactEntry e r).scope = some e.scope ∧
      (redactEntry e r).status = some e.status ∧
      (redactEntry e r).currentTaskCount = some e.currentTaskCount ∧
      (redactEntry e r).lastHeartbeat = some e.lastHeartbeat ∧
      ((redactEntry e r).projectId ≠ none ↔ r.projectId = e.projectId) ∧
      ((redactEntry e r).natsUrl ≠ none ↔ r.projectId = e.projectId) ∧
      ((redactEntry e r).username ≠ none ↔
        (e.visibility = .userOnly ∧ usernamesMatch e r = true)) ∧
      (redactEntry e r).registeredAt = none) := by
  refine ⟨?_, ?_, ?_⟩
  · intro hinv
    simp [redactEntry, hinv]
  · intro hself
    have hvis := isVisibleTo_self e r hself
    simp [redactEntry, hvis, hself]
  · intro hvis hne
    have hbeq : (r.guid == e.guid) = false := beq_eq_false_iff_ne.mpr hne
    have hred : redactEntry e r =
        { guid := some e.guid, agentType := some e.agentType,
          handle := some e.handle, hostname := some e.hostname,
          projectId := if r.projectId == e.projectId
                       then some e.projectId else none,
          natsUrl := if r.projectId == e.projectId
                     then some e.natsUrl else none,
          username := if e.visibility == .userOnly && usernamesMatch e r
                      then e.username else none,
          capabilities := some e.capabilities, scope := some e.scope,
          visibility := none, status := some e.status,
          currentTaskCount := some e.currentTaskCount,
          registeredAt := none, lastHeartbeat := some e.lastHeartbeat } := by
      rw [redactEntry, if_neg (by simp [hvis]), if_neg (by simp [hbeq])]
    rw [hred]
    refine ⟨rfl, rfl, rfl, rfl, rfl, rfl, rfl, rfl, rfl, ?_, ?_, ?_, rfl⟩
    · by_cases hp : r.projectId = e.projectId
      · simp [hp]
      · simp [hp, beq_eq_false_iff_ne.mpr hp]
    · by_cases hp : r.projectId = e.projectId
      · simp [hp]
      · simp [hp, beq_eq_false_iff_ne.mpr hp]
    · by_cases hu : (e.visibility == Visibility.userOnly && usernamesMatch e r) = true
      · have hu' := hu
        rw [Bool.and_eq_true, beq_iff_eq] at hu'
        obtain ⟨u, heu, _, _⟩ := (usernamesMatch_iff e r).mp hu'.2
        simp [hu, hu'.1, hu'.2, heu]
      · have hub : (e.visibility == Visibility.userOnly && usernamesMatch e r) = false :=
          Bool.eq_false_iff.mpr hu
        have hu' : ¬(e.visibility = Visibility.userOnly ∧ usernamesMatch e r = true) := by
          intro hc
          exact hu (by rw [Bool.and_eq_true, beq_iff_eq]; exact hc)
        simp [hub, hu']

/-- Witness for `redactEntry_amended`: a same-project requester that is not
the entry itself, on a project-only entry, receives the redacted view with
`projectId` and `natsUrl` present and `registeredAt` absent. -/
theorem redactEntry_amended_witness :
    (redactEntry { baseEntry with visibility := .projectOnly }
      sameProjectRequester).projectId ≠ none ∧
    (redactEntry { baseEntry with visibility := .projectOnly }
      sameProjectRequester).registeredAt = none :=
  have h := (redactEntry_amended { baseEntry with visibility := .projectOnly }
    sameProjectRequester).2.2 (by decide) (by decide)
  ⟨(h.2.2.2.2.2.2.2.2.2.1).mpr rfl, h.2.2.2.2.2.2.2.2.2.2.2.2⟩

/-! ## Claim C4 -/

/-- Counterexample to the deregistration half of the claim: deregistering
an agent whose stored entry has `lastHeartbeat` `2025-12-07T12:00:00.000Z`
at a later current time leaves `lastHeartbeat` untouched — the written
entry is `{ ...entry, status: 'offline' }`, with no timestamp stamping. -/
theorem deregister_keeps_lastHeartbeat :
    (deregisterEntryUpdate baseEntry).lastHeartbeat = baseEntry.lastHeartbeat ∧
    baseEntry.lastHeartbeat ≠ "2025-12-07T13:00:00.000Z" := by
  decide

/-- C4 (amended): a presence update writes the stored entry with
`lastHeartbeat` stamped to the current time, overwriting exactly the
provided fields among `status`, `currentTaskCount` and `capabilities` and
leaving every other field unchanged; deregistration writes the entry with
only `status` set to `offline`, leaving every other field — including
`lastHeartbeat` — unchanged. -/
theorem presence_dereg_frame (status? : Option AgentStatus)
    (currentTaskCount? : Option Int) (capabilities? : Option (List String))
    (e e' : RegistryEntry) (now : String) :
    (updatePresenceEntry status? currentTaskCount? capabilities? e now = .ok e' →
      e'.lastHeartbeat = now ∧
      e'.status = status?.getD e.status ∧
      e'.currentTaskCount = currentTaskCount?.getD e.currentTaskCount ∧
      e'.capabilities = capabilities?.getD e.capabilities ∧
      e'.guid = e.guid ∧ e'.agentType = e.agentType ∧ e'.handle = e.handle ∧
      e'.hostname = e.hostname ∧ e'.projectId = e.projectId ∧
      e'.natsUrl = e.natsUrl ∧ e'.username = e.username ∧
      e'.scope = e.scope ∧ e'.visibility = e.visibility ∧
      e'.registeredAt = e.registeredAt) ∧
    ((deregisterEntryUpdate e).status = .offline ∧
      (deregisterEntryUpdate e).lastHeartbeat = e.lastHeartbeat ∧
      (deregisterEntryUpdate e).guid = e.guid ∧
      (deregisterEntryUpdate e).agentType = e.agentType ∧
      (deregisterEntryUpdate e).handle = e.handle ∧
      (deregisterEntryUpdate e).hostname = e.hostname ∧
      (deregisterEntryUpdate e).projectId = e.projectId ∧
      (deregisterEntryUpdate e).natsUrl = e.natsUrl ∧
      (deregisterEntryUpdate e).username = e.username ∧
      (deregisterEntryUpdate e).capabilities = e.capabilities ∧
      (deregisterEntryUpdate e).scope = e.scope ∧
      (deregisterEntryUpdate e).visibility = e.visibility ∧
      (deregisterEntryUpdate e).currentTaskCount = e.currentTaskCount ∧
      (deregisterEntryUpdate e).registeredAt = e.registeredAt) := by
  constructor
  · intro h
    unfold updatePresenceEntry at h
    by_cases hc : (status?.isNone && currentTaskCount?.isNone && capabilities?.isNone) = true
    · rw [if_pos hc] at h
      exact absurd h (by simp)
    · rw [if_neg hc] at h
      injection h with h
      subst h
      exact ⟨rfl, rfl, rfl, rfl, rfl, rfl, rfl, rfl, rfl, rfl, rfl, rfl, rfl, rfl⟩
  · exact ⟨rfl, rfl, rfl, rfl, rfl, rfl, rfl, rfl, rfl, rfl, rfl, rfl, rfl, rfl⟩

/-- The entry a status-only presence update writes for `baseEntry` at a
fixed later time. -/
def presenceUpdatedEntry : RegistryEntry :=
  { baseEntry with
    status := .busy,
    lastHeartbeat := "2025-12-07T13:00:00.000Z" }

/-- Witness for `presence_dereg_frame`: a `status := busy` presence update
of `baseEntry` stamps `lastHeartbeat` and preserves the handle. -/
theorem presence_dereg_frame_witness :
    presenceUpdatedEntry.lastHeartbeat = "2025-12-07T13:00:00.000Z" ∧
    presenceUpdatedEntry.handle = baseEntry.handle :=
  have h := (presence_dereg_frame (some .busy) none none baseEntry
    presenceUpdatedEntry "2025-12-07T13:00:00.000Z").1 rfl
  ⟨h.1, h.2.2.2.2.2.2.1⟩

/-! ## Claim C1 -/

/-- Overwriting the entry found under a key makes a later lookup of that
key return the new value. -/
theorem find?_map_overwrite (id : String) (a' : WorkAssignment)
    (l : List (String × WorkAssignment))
    (h : (l.find? fun kv => kv.1 == id).isSome) :
    (match (l.map fun kv => if kv.1 == id then (kv.1, a') else kv).find?
        (fun kv => kv.1 == id) with
     | some kv => some kv.2
     | none => none) = some a' := by
  induction l with
  | nil => simp [List.find?] at h
  | cons kv rest ih =>
    cases hk : kv.1 == id with
    | true => simp [List.map_cons, List.find?, hk]
    | false =>
      have h' : (rest.find? fun kv => kv.1 == id).isSome := by
        simpa [List.find?, hk] using h
      simpa [List.map_cons, List.find?, hk] using ih h'

/-- `setAssignment` updates what `getAssignment` sees for a tracked id. -/
theorem CoordState.getAssignment_set (s : CoordState) (id : String)
    (a a' : WorkAssignment) (ha : s.getAssignment id = some a) :
    (s.setAssignment id a').getAssignment id = some a' := by
  unfold CoordState.getAssignment at ha ⊢
  unfold CoordState.setAssignment
  have hsome : (s.assignments.find? fun kv => kv.1 == id).isSome := by
    cases hf : s.assignments.find? fun kv => kv.1 == id with
    | none => rw [hf] at ha; simp at ha
    | some kv => simp
  exact find?_map_overwrite id a' s.assignments hsome

/-- Timer bookkeeping is invisible to assignment lookups. -/
theorem CoordState.getAssignment_clearTimer (s : CoordState) (x id : String) :
    (s.clearTimer x).getAssignment id = s.getAssignment id := rfl

/-- Timer bookkeeping is invisible to assignment lookups. -/
theorem CoordState.getAssignment_startTimer (s : CoordState) (x id : String) :
    (s.startTimer x).getAssignment id = s.getAssignment id := rfl

/-- The coordinator state fixtures for the counterexample: submit a work
item, let a worker claim it, record an unrecoverable error (the assignment
becomes `failed` and is handed to the DLQ), then call `recordCompletion`
on the failed assignment. -/
def coordInit : CoordState :=
  { maxAttempts := 3, assignmentTimeoutMs := 300000, autoRetry := true,
    coordinatorGuid := "coord-guid-1234", projectId := "1234567890abcdef",
    username := none, assignments := [], timers := [], queues := [],
    dlq := [] }

/-- The submitted request of the counterexample. -/
def coordReq : WorkRequest :=
  { taskId := "task-123", capability := "typescript",
    description := "Test task", priority := none, deadline := none,
    contextData := none }

/-- The work item id minted for the counterexample. -/
def coordWid : String := "123e4567-e89b-42d3-a456-426614174000"

/-- State after `submitWork`. -/
def coordAfterSubmit : CoordState :=
  (submitWork coordReq coordWid "2025-01-15T10:00:00Z" coordInit).1

/-- State after the worker's claim. -/
def coordAfterClaim : CoordState :=
  (recordClaim coordWid "worker-1" "2025-01-15T10:01:00Z" coordAfterSubmit).1

/-- State after `recordError(_, 'Fatal error', recoverable := false)`. -/
def coordAfterError : CoordState :=
  (recordError coordWid "Fatal error" false "2025-01-15T10:02:00Z"
    coordAfterClaim).1

/-- State after a subsequent `recordCompletion` on the failed item. -/
def coordAfterLateCompletion : CoordState :=
  (recordCompletion coordWid none "2025-01-15T10:03:00Z" coordAfterError).1

/-- Counterexample to C1: after the unrecoverable error the assignment has
`status = failed` and `progress = 0`, yet a subsequent `recordCompletion`
— which checks only that the item is tracked, not its status — moves it to
`status = completed` with `progress = 100`, a further transition out of a
terminal state. -/
theorem recordCompletion_revives_failed_assignment :
    ((coordAfterError.getAssignment coordWid).map fun a => a.status) =
      some .failed ∧
    ((coordAfterError.getAssignment coordWid).map fun a => a.progress) =
      some 0 ∧
    (recordCompletion coordWid none "2025-01-15T10:03:00Z" coordAfterError).2 =
      true ∧
    ((coordAfterLateCompletion.getAssignment coordWid).map fun a => a.status) =
      some .completed ∧
    ((coordAfterLateCompletion.getAssignment coordWid).map fun a => a.progress) =
      some 100 := by
  decide

/-- C1 (amended): once a tracked assignment's status is `completed` or
`failed`, `recordClaim` and `recordProgress` cause no state change and
return `false`; `recordCompletion`, however, has no status guard and still
transitions any tracked assignment — a failed one included — to
`completed` with `progress` 100 (and `recordError` is likewise
unguarded). -/
theorem terminal_assignment_amended (s : CoordState)
    (id workerGuid now : String) (p : Int)
    (r : Option (List (String × String))) (a : WorkAssignment)
    (ha : s.getAssignment id = some a)
    (hterm : a.status = .completed ∨ a.status = .failed) :
    recordClaim id workerGuid now s = (s, false) ∧
    recordProgress id p s = (s, false) ∧
    (((recordCompletion id r now s).1.getAssignment id).map fun x => x.status) =
      some .completed ∧
    (((recordCompletion id r now s).1.getAssignment id).map fun x => x.progress) =
      some 100 := by
  have hnp : (a.status != AssignmentStatus.pending) = true := by
    rcases hterm with h | h <;> rw [h] <;> rfl
  have hna : (a.status != AssignmentStatus.assigned) = true := by
    rcases hterm with h | h <;> rw [h] <;> rfl
  have hni : (a.status != AssignmentStatus.inProgress) = true := by
    rcases hterm with h | h <;> rw [h] <;> rfl
  refine ⟨?_, ?_, ?_, ?_⟩
  · simp [recordClaim, ha, hnp]
  · simp [recordProgress, ha, hna, hni]
  · simp only [recordCompletion, ha]
    rw [CoordState.getAssignment_clearTimer,
      CoordState.getAssignment_set s id a _ ha]
    rfl
  · simp only [recordCompletion, ha]
    rw [CoordState.getAssignment_clearTimer,
      CoordState.getAssignment_set s id a _ ha]
    rfl

/-- Witness for `terminal_assignment_amended`: at the concrete post-error
state, a late claim and a late progress report are rejected without any
state change. -/
theorem terminal_assignment_amended_witness :
    recordClaim coordWid "worker-2" "2025-01-15T10:04:00Z" coordAfterError =
      (coordAfterError, false) ∧
    recordProgress coordWid 50 coordAfterError = (coordAfterError, false) :=
  have h := terminal_assignment_amended coordAfterError coordWid "worker-2"
    "2025-01-15T10:04:00Z" 50 none
    ((coordAfterError.getAssignment coordWid).get (by decide))
    (by decide) (by decide)
  ⟨h.1, h.2.1⟩

/-! ## Claim C8 -/

/-- C8: for a tracked assignment, `recordError` with `recoverable` true,
`autoRetry` enabled and `attempts < maxAttempts` resets the assignment to
`pending` with `assignedTo` cleared and `progress` 0, republishes a new
work item for it with priority 7, and restarts the timeout timer; in every
other case it sets `status = failed`, clears the timer, and appends to the
DLQ a record carrying the error message as both the `reason` and the sole
`errors` entry.  The two auxiliary hypotheses (`id` a UUID v4 — it is
minted by `randomUUID()` — and a non-blank capability) make the retry
republish pass `validateWorkItem`. -/
theorem recordError_retry_or_dlq (s : CoordState) (id err now : String)
    (rec : Bool) (a : WorkAssignment)
    (ha : s.getAssignment id = some a)
    (hid : isValidUUID id = true)
    (hcap : jsTrim a.capability ≠ "") :
    ((rec = true ∧ s.autoRetry = true ∧ a.attempts < a.maxAttempts) →
      (recordError id err rec now s).2 = .ok true ∧
      (recordError id err rec now s).1.getAssignment id =
        some { a with
               error := some err, status := .pending,
               assignedTo := none, assignedAt := none, progress := 0 } ∧
      Queues.get (recordError id err rec now s).1.queues
          (getWorkQueueSubject a.capability) =
        Queues.get s.queues (getWorkQueueSubject a.capability) ++
          [{ id := id, taskId := a.taskId, capability := a.capability,
             description := "Retry attempt " ++ toString (a.attempts + 1),
             priority := some 7, deadline := none, contextData := none,
             offeredBy := s.coordinatorGuid, offeredAt := now,
             attempts := a.attempts }] ∧
      id ∈ (recordError id err rec now s).1.timers) ∧
    (¬(rec = true ∧ s.autoRetry = true ∧ a.attempts < a.maxAttempts) →
      (recordError id err rec now s).2 = .ok true ∧
      (recordError id err rec now s).1.getAssignment id =
        some { a with error := some err, status := .failed } ∧
      id ∉ (recordError id err rec now s).1.timers ∧
      (recordError id err rec now s).1.dlq =
        s.dlq ++
          [{ id := id,
             workItem :=
               { id := id, taskId := a.taskId,
                 capability := a.capability,
                 description := "Failed work item", priority := none,
                 deadline := none, contextData := none,
                 offeredBy := s.coordinatorGuid, offeredAt := a.createdAt,
                 attempts := a.attempts },
             reason := err, attempts := a.attempts, failedAt := now,
             errors := [err] }]) := by
  have hcap0 : (a.capability == "") = false :=
    beq_eq_false_iff_ne.mpr (fun hc => hcap (by rw [hc]; rfl))
  have hcapt : (jsTrim a.capability == "") = false := beq_eq_false_iff_ne.mpr hcap
  constructor
  · rintro ⟨hrec, hauto, hlt⟩
    have hcond : (rec && s.autoRetry && decide (a.attempts < a.maxAttempts)) = true := by
      simp [hrec, hauto, hlt]
    have hval : validateWorkItem
        { id := id, taskId := a.taskId, capability := a.capability,
          description := "Retry attempt " ++ toString (a.attempts + 1),
          priority := some 7, deadline := none, contextData := none,
          offeredBy := s.coordinatorGuid, offeredAt := now,
          attempts := a.attempts } = none := by
      simp [validateWorkItem, hid, hcap0, hcapt]
    simp only [recordError, ha, hcond, if_true, publishWorkItem, hval]
    refine ⟨trivial, ?_, ?_, ?_⟩
    · rw [CoordState.getAssignment_startTimer]
      exact CoordState.getAssignment_set s id a _ ha
    · exact Queues.get_append_self s.queues (getWorkQueueSubject a.capability) _
    · simp [CoordState.startTimer]
  · intro hn
    have hcond : (rec && s.autoRetry && decide (a.attempts < a.maxAttempts)) = false := by
      cases hr : rec with
      | false => simp
      | true =>
        cases hau : s.autoRetry with
        | false => simp
        | true =>
          have hnl : ¬a.attempts < a.maxAttempts := fun hlt => hn ⟨hr, hau, hlt⟩
          simp [hnl]
    simp only [recordError, ha, hcond, Bool.false_eq_true, if_false]
    refine ⟨trivial, ?_, ?_, rfl⟩
    · exact CoordState.getAssignment_set s id a _ ha
    · simp [CoordState.clearTimer]

/-- The assignment tracked after the counterexample claim. -/
def claimedAssignment : WorkAssignment :=
  { workItemId := coordWid, taskId := "task-123", capability := "typescript",
    assignedTo := some "worker-1", assignedAt := some "2025-01-15T10:01:00Z",
    status := .assigned, progress := 0, attempts := 1, maxAttempts := 3,
    createdAt := "2025-01-15T10:00:00Z", completedAt := none, result := none,
    error := none }

/-- Witness for `recordError_retry_or_dlq`: at the concrete claimed state,
an unrecoverable error reports success and leaves no armed timer. -/
theorem recordError_retry_or_dlq_witness :
    (recordError coordWid "Fatal error" false "2025-01-15T10:02:00Z"
      coordAfterClaim).2 = .ok true ∧
    coordWid ∉ (recordError coordWid "Fatal error" false "2025-01-15T10:02:00Z"
      coordAfterClaim).1.timers :=
  have h := (recordError_retry_or_dlq coordAfterClaim coordWid "Fatal error"
    "2025-01-15T10:02:00Z" false claimedAssignment
    (by decide) (by decide) (by decide)).2
    (fun hc => Bool.noConfusion hc.1)
  ⟨h.1, h.2.2.1⟩

/-! ## Claim C9 -/

/-- `insertByTimestamp` is a permutation of consing. -/
theorem perm_insertByTimestamp (m : InboxMessage) (l : List InboxMessage) :
    (insertByTimestamp m l).Perm (m :: l) := by
  induction l with
  | nil => simp [insertByTimestamp]
  | cons x xs ih =>
    simp only [insertByTimestamp]
    by_cases h : m.timestamp ≤ x.timestamp
    · rw [if_pos h]
    · rw [if_neg h]
      exact (ih.cons x).trans (List.Perm.swap m x xs)

/-- `insertByTimestamp` preserves ascending-timestamp sortedness. -/
theorem pairwise_insertByTimestamp (m : InboxMessage) (l : List InboxMessage)
    (h : l.Pairwise fun a b => a.timestamp ≤ b.timestamp) :
    (insertByTimestamp m l).Pairwise fun a b => a.timestamp ≤ b.timestamp := by
  induction l with
  | nil => simp [insertByTimestamp]
  | cons x xs ih =>
    rcases List.pairwise_cons.mp h with ⟨hx, hxs⟩
    simp only [insertByTimestamp]
    by_cases hm : m.timestamp ≤ x.timestamp
    · rw [if_pos hm]
      refine List.pairwise_cons.mpr ⟨?_, h⟩
      intro y hy
      rcases List.mem_cons.mp hy with rfl | hy'
      · exact hm
      · exact le_trans hm (hx y hy')
    · rw [if_neg hm]
      refine List.pairwise_cons.mpr ⟨?_, ih hxs⟩
      intro y hy
      have hy2 := (perm_insertByTimestamp m xs).mem_iff.mp hy
      rcases List.mem_cons.mp hy2 with rfl | hy'
      · exact le_of_not_le hm
      · exact hx y hy'

/-- Sorting permutes the input. -/
theorem sortByTimestamp_perm (l : List InboxMessage) :
    (sortByTimestamp l).Perm l := by
  induction l with
  | nil => simp [sortByTimestamp]
  | cons m ms ih =>
    simp only [sortByTimestamp]
    exact (perm_insertByTimestamp m (sortByTimestamp ms)).trans (ih.cons m)

/-- The sort output is ascending in timestamps. -/
theorem sortByTimestamp_pairwise (l : List InboxMessage) :
    (sortByTimestamp l).Pairwise fun a b => a.timestamp ≤ b.timestamp := by
  induction l with
  | nil => simp [sortByTimestamp]
  | cons m ms ih =>
    simp only [sortByTimestamp]
    exact pairwise_insertByTimestamp m (sortByTimestamp ms) ih

/-- The acked output of the fetch loop is an in-order prefix of the fetched
batch: the loop walks the batch front to back and acks every message it
examines, stopping the walk (and the acking) only when the kept quota is
reached. -/
theorem inboxReadLoop_acked_prefix (msgs : List RawInboxMsg) (cap : Nat)
    (mt sg : Option String) :
    ∃ n, (inboxReadLoop msgs cap mt sg).2 = msgs.take n := by
  induction msgs generalizing cap with
  | nil => exact ⟨0, rfl⟩
  | cons m rest ih =>
    cases m with
    | error e =>
      obtain ⟨n, hn⟩ := ih cap
      exact ⟨n + 1, by simp [inboxReadLoop, hn]⟩
    | ok p =>
      by_cases hf : inboxFilterOk mt sg p = true
      · by_cases hc : cap ≤ 1
        · exact ⟨1, by simp [inboxReadLoop, hf, hc]⟩
        · obtain ⟨n, hn⟩ := ih (cap - 1)
          exact ⟨n + 1, by simp [inboxReadLoop, hf, hc, hn]⟩
      · obtain ⟨n, hn⟩ := ih cap
        exact ⟨n + 1, by simp [inboxReadLoop, hf, hn]⟩

/-- The loop keeps at most `cap` messages (for a positive quota). -/
theorem inboxReadLoop_kept_le (msgs : List RawInboxMsg) (cap : Nat)
    (mt sg : Option String) (hcap : 1 ≤ cap) :
    (inboxReadLoop msgs cap mt sg).1.length ≤ cap := by
  induction msgs generalizing cap with
  | nil => simp [inboxReadLoop]
  | cons m rest ih =>
    cases m with
    | error e => simpa [inboxReadLoop] using ih cap hcap
    | ok p =>
      by_cases hf : inboxFilterOk mt sg p = true
      · by_cases hc : cap ≤ 1
        · simp [inboxReadLoop, hf, hc]
          omega
        · have h2 : 1 ≤ cap - 1 := by omega
          have hrec := ih (cap - 1) h2
          simp only [inboxReadLoop, hf, if_true, hc, if_false, List.length_cons]
          omega
      · simpa [inboxReadLoop, hf] using ih cap hcap

/-- Every kept message passes both optional filters. -/
theorem inboxReadLoop_kept_filter (msgs : List RawInboxMsg) (cap : Nat)
    (mt sg : Option String) :
    ∀ p ∈ (inboxReadLoop msgs cap mt sg).1, inboxFilterOk mt sg p = true := by
  induction msgs generalizing cap with
  | nil => simp [inboxReadLoop]
  | cons m rest ih =>
    cases m with
    | error e => simpa [inboxReadLoop] using ih cap
    | ok p0 =>
      intro p hp
      by_cases hf : inboxFilterOk mt sg p0 = true
      · by_cases hc : cap ≤ 1
        · simp [inboxReadLoop, hf, hc] at hp
          rw [hp]
          exact hf
        · simp only [inboxReadLoop, hf, if_true, hc, if_false,
            List.mem_cons] at hp
          rcases hp with rfl | hp'
          · exact hf
          · exact ih (cap - 1) p hp'
      · apply ih cap
        simpa [inboxReadLoop, hf] using hp

/-- Every kept message's raw form is among the acked messages. -/
theorem inboxReadLoop_kept_acked (msgs : List RawInboxMsg) (cap : Nat)
    (mt sg : Option String) :
    ∀ p ∈ (inboxReadLoop msgs cap mt sg).1,
      (Except.ok p : RawInboxMsg) ∈ (inboxReadLoop msgs cap mt sg).2 := by
  induction msgs generalizing cap with
  | nil => simp [inboxReadLoop]
  | cons m rest ih =>
    cases m with
    | error e =>
      intro p hp
      have hp' : p ∈ (inboxReadLoop rest cap mt sg).1 := by
        simpa [inboxReadLoop] using hp
      have := ih cap p hp'
      simp [inboxReadLoop]
      exact this
    | ok p0 =>
      intro p hp
      by_cases hf : inboxFilterOk mt sg p0 = true
      · by_cases hc : cap ≤ 1
        · simp [inboxReadLoop, hf, hc] at hp ⊢
          exact hp
        · simp only [inboxReadLoop, hf, if_true, hc, if_false,
            List.mem_cons] at hp ⊢
          rcases hp with rfl | hp'
          · exact Or.inl rfl
          · exact Or.inr (ih (cap - 1) p hp')
      · have hp' : p ∈ (inboxReadLoop rest cap mt sg).1 := by
          simpa [inboxReadLoop, hf] using hp
        have := ih cap p hp'
        simp [inboxReadLoop, hf]
        exact Or.inr this

/-- C9: one inbox read fetches at most twice the (clamped) requested limit
of messages; the messages it acks are exactly the in-order prefix of that
batch it examined — kept, filtered-out and unparseable alike — so none of
them is re-delivered; every returned message passes the optional
`messageType`/`senderGuid` filters and was acked; and at most `limit`
messages are returned, sorted by timestamp ascending. -/
theorem readDirectMessages_contract (inbox : List RawInboxMsg)
    (requestedLimit : Nat) (mt sg : Option String) :
    (readDirectMessages inbox requestedLimit mt sg).acked.length ≤
      2 * min requestedLimit 100 ∧
    (∃ n, (readDirectMessages inbox requestedLimit mt sg).acked =
      (inbox.take (2 * min requestedLimit 100)).take n) ∧
    (readDirectMessages inbox requestedLimit mt sg).returned.length ≤
      min requestedLimit 100 ∧
    (∀ m ∈ (readDirectMessages inbox requestedLimit mt sg).returned,
      inboxFilterOk mt sg m = true) ∧
    (∀ m ∈ (readDirectMessages inbox requestedLimit mt sg).returned,
      (Except.ok m : RawInboxMsg) ∈
        (readDirectMessages inbox requestedLimit mt sg).acked) ∧
    (readDirectMessages inbox requestedLimit mt sg).returned.Pairwise
      (fun a b => a.timestamp ≤ b.timestamp) := by
  have key : readDirectMessages inbox requestedLimit mt sg =
      { returned := sortByTimestamp
          (inboxReadLoop (inbox.take (2 * min requestedLimit 100))
            (min requestedLimit 100) mt sg).1,
        acked := (inboxReadLoop (inbox.take (2 * min requestedLimit 100))
            (min requestedLimit 100) mt sg).2 } := rfl
  rw [key]
  refine ⟨?_, ?_, ?_, ?_, ?_, ?_⟩
  · obtain ⟨n, hn⟩ := inboxReadLoop_acked_prefix
      (inbox.take (2 * min requestedLimit 100)) (min requestedLimit 100) mt sg
    simp only [hn, List.length_take]
    omega
  · exact inboxReadLoop_acked_prefix _ _ mt sg
  · rw [List.Perm.length_eq (sortByTimestamp_perm _)]
    by_cases hL : min requestedLimit 100 = 0
    · rw [hL]
      simp [inboxReadLoop]
    · exact inboxReadLoop_kept_le _ _ mt sg (by omega)
  · intro m hm
    exact inboxReadLoop_kept_filter _ _ mt sg m
      ((sortByTimestamp_perm _).mem_iff.mp hm)
  · intro m hm
    exact inboxReadLoop_kept_acked _ _ mt sg m
      ((sortByTimestamp_perm _).mem_iff.mp hm)
  · exact sortByTimestamp_pairwise _

/-- An inbox message fixture for the C9 witness. -/
def inboxMsg (i ts : Nat) (ty : String) : InboxMessage :=
  { id := toString i, senderGuid := "523e4567-e89b-42d3-a456-426614174000",
    senderHandle := "sender", recipientGuid := coordWid, messageType := ty,
    content := "hello", metadata := none, timestamp := ts }

/-- A five-message inbox: three `text` messages (timestamps 30, 20, 5), one
unparseable payload, and one `work-offer`. -/
def inboxFixture : List RawInboxMsg :=
  [Except.ok (inboxMsg 1 30 "text"), Except.error "bad json",
   Except.ok (inboxMsg 2 10 "work-offer"), Except.ok (inboxMsg 3 20 "text"),
   Except.ok (inboxMsg 4 5 "text")]

/-- Witness for `readDirectMessages_contract`: reading two `text` messages
from the fixture inbox keeps the timestamp-20 message, and its raw form is
among the acked messages. -/
theorem readDirectMessages_contract_witness :
    (Except.ok (inboxMsg 3 20 "text") : RawInboxMsg) ∈
      (readDirectMessages inboxFixture 2 (some "text") none).acked :=
  (readDirectMessages_contract inboxFixture 2 (some "text") none).2.2.2.2.1
    (inboxMsg 3 20 "text") (by decide)

end LoomWarp
